import Mathlib

/-!
Verification of the GPU process attribution engine of the SystemMonitor
repository.  The definitions below are a shallow embedding of
`backend/system_monitor/core/collectors/gpu.py`,
`backend/system_monitor/core/collectors/process.py`,
`backend/system_monitor/core/collectors/docker_helper.py` and
`backend/system_monitor/core/collectors/base.py`.

Modelling conventions:
- Python text is modelled as `List Char`; Python `in` on strings is the
  contiguous-substring test `strContains`.
- Python dicts (insertion ordered, last assignment wins in place) are
  modelled as association lists with the `dinsert` operation.
- External effects (psutil, pynvml, nvidia-smi, docker) are modelled by
  environment records carrying total oracles; an exception raised by an
  external call and swallowed by the code is modelled by an `Option`
  result of `none` exactly where the code catches it.
- Float-valued process statistics (cpu percent, resident memory) are
  carried opaquely as oracle-provided naturals; no verified claim reads
  them.
-/

namespace SystemMonitor

abbrev Str := List Char

/-- Substring-at-front test, Python `startswith`. -/
def isPrefOf : Str → Str → Bool
  | [], _ => true
  | _ :: _, [] => false
  | a :: as, b :: bs => a == b && isPrefOf as bs

/-- Contiguous-substring test, Python `needle in hay`. -/
def strContains : Str → Str → Bool
  | [], needle => isPrefOf needle []
  | c :: t, needle => isPrefOf needle (c :: t) || strContains t needle

/-- Python `endswith`. -/
def strEndsWith (s suf : Str) : Bool := isPrefOf suf.reverse s.reverse

/-- Python `str.lower()` (ASCII relevant here). -/
def lowerStr (s : Str) : Str := s.map Char.toLower

/-- Python `' '.join(xs)`. -/
def joinSp (xs : List Str) : Str := List.intercalate [' '] xs

/-- Strip characters satisfying `p` from both ends, Python `strip`. -/
def stripWhile (p : Char → Bool) (s : Str) : Str :=
  ((s.dropWhile p).reverse.dropWhile p).reverse

def stripWs (s : Str) : Str := stripWhile Char.isWhitespace s

def stripPipes (s : Str) : Str := stripWhile (fun c => c == '|') s

/-- Whitespace tokenisation, Python `str.split()` with no argument. -/
def splitWsAux : Str → Str → List Str
  | [], cur => if cur.isEmpty then [] else [cur.reverse]
  | c :: cs, cur =>
    if c.isWhitespace then
      if cur.isEmpty then splitWsAux cs [] else cur.reverse :: splitWsAux cs []
    else splitWsAux cs (c :: cur)

def splitWs (s : Str) : List Str := splitWsAux s []

/-- Python `str.isdigit()` (ASCII digits). -/
def isDigitStr (s : Str) : Bool := !s.isEmpty && s.all Char.isDigit

def digitsVal (s : Str) : Nat := s.foldl (fun a c => a * 10 + (c.toNat - 48)) 0

/-- Python `int(s)` restricted to the digit strings the callers feed it;
    a non-digit argument raises `ValueError` in the source, which every
    caller catches, so it is modelled as `none`. -/
def parseNat? (s : Str) : Option Nat := if isDigitStr s then some (digitsVal s) else none

/-- Python `part.replace('MiB', '')`: delete every occurrence. -/
def replaceMiB : Str → Str
  | [] => []
  | c :: cs =>
    if c == 'M' && isPrefOf ['i', 'B'] cs then replaceMiB (cs.drop 2)
    else c :: replaceMiB cs
termination_by s => s.length
decreasing_by
  · simp only [List.length_cons, List.length_drop]; omega
  · simp only [List.length_cons]; omega

/-- Association-list lookup, Python `m.get(k)` / `m[k]`. -/
def dlookup {β : Type} : List (Nat × β) → Nat → Option β
  | [], _ => none
  | e :: m, k => if e.1 = k then some e.2 else dlookup m k

/-- Python `k in m` for a dict. -/
def dmem {β : Type} : List (Nat × β) → Nat → Bool
  | [], _ => false
  | e :: m, k => if e.1 = k then true else dmem m k

/-- Python dict assignment `m[k] = v`: update in place when the key is
    present (keeping its position), append otherwise. -/
def dinsert {β : Type} (m : List (Nat × β)) (k : Nat) (v : β) : List (Nat × β) :=
  if dmem m k then m.map (fun e => if e.1 = k then (k, v) else e)
  else m ++ [(k, v)]

/-! ### Docker helper (`docker_helper.py`) -/

/-- The per-container info dict built in `get_container_process_map`. -/
structure ContainerRec where
  cname : Str
  image : Str
  status : Str
deriving Repr, DecidableEq

/-- One container as reported by the runtime: name, image tags, status,
    and the rows of its `top()` process table (`none` models the
    per-container exception swallowed by the code). -/
structure DockerContainer where
  cname : Str
  imageTags : List Str
  status : Str
  topRows : Option (List (List Str))
deriving Repr

/-- Construction-time environment of `DockerHelper._init_docker_client`:
    whether the docker module imported, and which of the four connection
    attempts (env default, unix socket, named pipe, TCP) would construct
    a client whose `ping()` succeeds. -/
structure DockerInitEnv where
  dockerModuleAvailable : Bool
  attemptSucceeds : Nat → Bool

/-- Poll-time environment of `get_container_process_map`: the container
    list, `none` modelling the swallowed `containers.list()` failure. -/
structure DockerRuntimeEnv where
  containersList : Option (List DockerContainer)

/-- `DockerHelper._init_docker_client`: try the four transports in order
    and keep the first whose liveness ping succeeds; `none` when the
    module is missing or every attempt fails.  The returned number is the
    index of the attempt that produced the kept client. -/
def init_docker_client (e : DockerInitEnv) : Option Nat :=
  if e.dockerModuleAvailable then (List.range 4).find? e.attemptSucceeds else none

/-- The `DockerHelper` object state: the client cached by `__init__`. -/
structure DockerHelperS where
  docker_client : Option Nat

/-- `DockerHelper.__init__`. -/
def mkDockerHelper (e : DockerInitEnv) : DockerHelperS :=
  { docker_client := init_docker_client e }

def containerInfoOf (c : DockerContainer) : ContainerRec :=
  { cname := c.cname, image := c.imageTags.headD "unknown".toList, status := c.status }

/-- One row of a container `top()` table: `container_map[int(row[1])] = info`
    when the row has at least two columns and the second parses. -/
def containerRowStep (info : ContainerRec) (m : List (Nat × ContainerRec)) (row : List Str) :
    List (Nat × ContainerRec) :=
  if row.length ≥ 2 then
    match parseNat? (row.getD 1 []) with
    | some pid => dinsert m pid info
    | none => m
  else m

/-- `DockerHelper.get_container_process_map`. -/
def get_container_process_map (client : Option Nat) (env : DockerRuntimeEnv) :
    List (Nat × ContainerRec) :=
  match client with
  | none => []
  | some _ =>
    match env.containersList with
    | none => []
    | some cs =>
      cs.foldl (fun m c =>
        match c.topRows with
        | none => m
        | some rows => rows.foldl (containerRowStep (containerInfoOf c)) m) []

/-- A poll through the cached helper object: the method call
    `self.docker_helper.get_container_process_map()`. -/
def helperPoll (h : DockerHelperS) (env : DockerRuntimeEnv) : List (Nat × ContainerRec) :=
  get_container_process_map h.docker_client env

/-! ### Process helper (`process.py`) -/

/-- One entry of `psutil.process_iter` as consumed by the keyword scan:
    pid, name and command line (a `None` name or cmdline is already
    collapsed to the empty value by the `or ''` / `or []` in the code). -/
structure IterProc where
  pid : Nat
  pname : Str
  cmdline : List Str
deriving Repr, DecidableEq

/-- `ProcessHelper.build_pid_namespace_map`, one process record: the
    parsed NSpid line.  With at least two entries, the first (host) and
    second (container) pids are recorded in both directions. -/
def nsRecordStep (maps : List (Nat × Nat) × List (Nat × Nat)) (pids : List Nat) :
    List (Nat × Nat) × List (Nat × Nat) :=
  match pids with
  | p0 :: p1 :: _ => (dinsert maps.1 p1 p0, dinsert maps.2 p0 p1)
  | _ => maps

/-- `ProcessHelper.build_pid_namespace_map` over the scanned processes:
    first component is `container_to_host` (the returned map), second is
    `host_to_container` (stored on `self`). -/
def build_pid_namespace_map (records : List (List Nat)) :
    List (Nat × Nat) × List (Nat × Nat) :=
  records.foldl nsRecordStep ([], [])

/-- The keyword predicate of `ProcessHelper.search_gpu_processes_by_keywords`:
    a GPU-affinity keyword occurs in the lowered `"{name} {cmdline}"`, or
    `python` occurs in the lowered name or lowered command line. -/
def keywordMatch (kws : List Str) (p : IterProc) : Bool :=
  let cmd := joinSp p.cmdline
  let full := lowerStr (p.pname ++ [' '] ++ cmd)
  kws.any (fun k => strContains full k)
    || strContains (lowerStr p.pname) "python".toList
    || strContains (lowerStr cmd) "python".toList

/-- `ProcessHelper.search_gpu_processes_by_keywords`. -/
def search_gpu_processes_by_keywords (procs : List IterProc) (kws : List Str) : List IterProc :=
  procs.filter (keywordMatch kws)

/-! ### GPU collector (`gpu.py`) -/

/-- One NVML running-process record (compute or graphics class). -/
structure NvmlProcEntry where
  pid : Nat
  usedGpuMemory : Option Nat
deriving Repr

/-- One NVML device: name (`none` models the name-query exception),
    accounting mode, the two running-process enumerations (a failing
    enumeration is already the empty list, as in the code), and the
    per-pid accounting stats `(isRunning, gpuUtilization)`. -/
structure NvmlDevice where
  devName : Option Str
  accountingEnabled : Bool
  computeProcs : List NvmlProcEntry
  graphicsProcs : List NvmlProcEntry
  accStats : Nat → Option (Bool × Nat)

/-- The data read from a `psutil.Process` object; `none` from the oracle
    models the `NoSuchProcess`/`AccessDenied` exception the code catches. -/
structure ProcDetails where
  pname : Str
  cmdline : List Str
  cpu_percent : Nat
  ram_mb : Nat
  start_time : Str
deriving Repr

/-- The external world of one `GPUCollector` poll. -/
structure GpuEnv where
  gpu_available : Bool
  nvml_initialized : Bool
  devices : List NvmlDevice
  pidExists : Nat → Bool
  procDetails : Nat → Option ProcDetails
  nspidRecords : List (List Nat)
  processIter : List IterProc
  smiStdout : Option Str

/-- Result dict of `GPUCollector.get_pid_gpu_info` when it returns:
    either `found: False` or the found record. -/
inductive PidGpuInfo where
  | notFound
  | found (gpu_id : Nat) (gpu_name : Str) (vram_used_mb : Nat) (gpu_utilization : Nat)
deriving Repr, DecidableEq

def gpuNameDefault (i : Nat) : Str := "GPU ".toList ++ Nat.toDigits 10 i

/-- Per-pid utilization on one device: only when accounting mode is on
    and the stats query succeeds with `isRunning`. -/
def accUtil (d : NvmlDevice) (pid : Nat) : Nat :=
  if d.accountingEnabled then
    match d.accStats pid with
    | some (true, u) => u
    | _ => 0
  else 0

/-- Scan devices in index order for the first one whose concatenated
    compute/graphics process list contains the target pid. -/
def findPidDevice : List NvmlDevice → Nat → Nat → Option (Nat × NvmlDevice × NvmlProcEntry)
  | [], _, _ => none
  | d :: ds, i, t =>
    match (d.computeProcs ++ d.graphicsProcs).find? (fun p => p.pid == t) with
    | some p => some (i, d, p)
    | none => findPidDevice ds (i + 1) t

/-- `proc.usedGpuMemory // (1024 * 1024) if proc.usedGpuMemory is not None else 0`. -/
def mbOf (used : Option Nat) : Nat := (used.map (fun b => b / (1024 * 1024))).getD 0

/-- `GPUCollector.get_pid_gpu_info`: `none` when NVML never initialized,
    `some notFound` when no device lists the pid. -/
def get_pid_gpu_info (env : GpuEnv) (target : Nat) : Option PidGpuInfo :=
  if env.nvml_initialized then
    match findPidDevice env.devices 0 target with
    | some (i, d, p) =>
      some (.found i (d.devName.getD (gpuNameDefault i)) (mbOf p.usedGpuMemory) (accUtil d target))
    | none => some .notFound
  else none

/-- Python `verification and verification.get('found')`. -/
def foundOk : Option PidGpuInfo → Bool
  | some (.found _ _ _ _) => true
  | _ => false

def foundVram : Option PidGpuInfo → Nat
  | some (.found _ _ v _) => v
  | _ => 0

def foundUtil : Option PidGpuInfo → Nat
  | some (.found _ _ _ u) => u
  | _ => 0

/-- The acceptance test of the verified reverse search in
    `GPUCollector._resolve_pid`: the candidate host pid has a found
    per-pid record whose memory differs from the declared figure by at
    most 1 MB. -/
def vramMatch (env : GpuEnv) (declared : Nat) (host_pid : Nat) : Bool :=
  match get_pid_gpu_info env host_pid with
  | some (.found _ _ v _) => decide (Nat.dist v declared ≤ 1)
  | _ => false

/-- `GPUCollector._resolve_pid`: direct hit, then namespace translation,
    then the verified reverse search over `host_to_container.keys()`. -/
def resolve_pid (env : GpuEnv) (h2cKeys : List Nat) (c2h : List (Nat × Nat))
    (nvml_pid vram_used_mb : Nat) : Option Nat :=
  if env.pidExists nvml_pid then some nvml_pid
  else
    match dlookup c2h nvml_pid with
    | some h => some h
    | none => h2cKeys.find? (vramMatch env vram_used_mb)

/-- One ProcessAttribution record (the per-process dict of the source). -/
structure GpuProcRec where
  pid : Nat
  pname : Str
  command : Str
  gpu_memory_mb : Nat
  gpu_utilization : Nat
  cpu_percent : Nat
  ram_mb : Nat
  start_time : Str
  ptag : Str
  container : Str
  container_source : Str
deriving Repr, DecidableEq

abbrev PMap := List (Nat × GpuProcRec)

def natStr (n : Nat) : Str := Nat.toDigits 10 n

def containerNameOf (ci : Option ContainerRec) : Str :=
  match ci with
  | some c => c.cname
  | none => "Host".toList

def containerSourceOf (ci : Option ContainerRec) : Str :=
  match ci with
  | some c => c.cname ++ " (".toList ++ c.image ++ ")".toList
  | none => "主機".toList

/-- `' '.join(p.cmdline()) if p.cmdline() else 'Unknown'`. -/
def commandOf (cmdl : List Str) : Str :=
  if cmdl.isEmpty then "Unknown".toList else joinSp cmdl

/-- The provenance tag built by `_collect_gpu_processes_nvml`. -/
def nvmlTypeTag (gpu_id : Nat) (gname : Str) (util vram : Nat) : Str :=
  let b0 := "🎯 GPU ".toList ++ natStr gpu_id ++ " (".toList ++ gname ++ ")".toList
  let b1 := if util > 0 then b0 ++ " - ".toList ++ natStr util ++ "% GPU".toList else b0
  let b2 := if vram > 0 then b1 ++ " - ".toList ++ natStr vram ++ "MB VRAM".toList else b1
  if util == 0 && vram == 0 then b2 ++ " - 使用中".toList else b2

def mkNvmlRec (t : Nat) (pd : ProcDetails) (vram util : Nat) (tag : Str)
    (ci : Option ContainerRec) : GpuProcRec :=
  { pid := t, pname := pd.pname, command := commandOf pd.cmdline,
    gpu_memory_mb := vram, gpu_utilization := util,
    cpu_percent := pd.cpu_percent, ram_mb := pd.ram_mb, start_time := pd.start_time,
    ptag := tag, container := containerNameOf ci, container_source := containerSourceOf ci }

/-- The body of the per-process loop of `_collect_gpu_processes_nvml`:
    resolve the raw pid, skip on failure (or a falsy 0), read accounting
    utilization, and insert only when the resolved pid exists and the
    psutil queries succeed. -/
def nvmlProcStep (env : GpuEnv) (cmap : List (Nat × ContainerRec)) (c2h : List (Nat × Nat))
    (h2cKeys : List Nat) (gpu_id : Nat) (d : NvmlDevice) (gname : Str)
    (m : PMap) (p : NvmlProcEntry) : PMap :=
  let vram := mbOf p.usedGpuMemory
  match resolve_pid env h2cKeys c2h p.pid vram with
  | none => m
  | some t =>
    if t == 0 then m
    else
      let util := accUtil d t
      if env.pidExists t then
        match env.procDetails t with
        | none => m
        | some pd =>
          dinsert m t (mkNvmlRec t pd vram util (nvmlTypeTag gpu_id gname util vram) (dlookup cmap t))
      else m

/-- `GPUCollector._collect_gpu_processes_nvml`. -/
def collect_gpu_processes_nvml (env : GpuEnv) (cmap : List (Nat × ContainerRec))
    (c2h : List (Nat × Nat)) (h2cKeys : List Nat) : PMap :=
  env.devices.enum.foldl (fun m idev =>
    let gname := idev.2.devName.getD (gpuNameDefault idev.1)
    (idev.2.computeProcs ++ idev.2.graphicsProcs).foldl
      (nvmlProcStep env cmap c2h h2cKeys idev.1 idev.2 gname) m) []

/-- Token scan of one nvidia-smi process-table row: first all-digit token
    is the pid, first of `C`/`G`/`C+G` the type, first `MiB`-suffixed
    token the memory figure. -/
def smiTokStep (st : Option Nat × Option Str × Option Nat) (part : Str) :
    Option Nat × Option Str × Option Nat :=
  if isDigitStr part && st.1.isNone then (some (digitsVal part), st.2.1, st.2.2)
  else if (part == "C".toList || part == "G".toList || part == "C+G".toList) && st.2.1.isNone then
    (st.1, some part, st.2.2)
  else if strEndsWith part "MiB".toList && st.2.2.isNone then
    (st.1, st.2.1, some ((parseNat? (replaceMiB part)).getD 0))
  else st

def smiTypeTag (t : Option Str) : Str :=
  if t.getD "Unknown".toList == "G".toList then "NVIDIA Graphics".toList
  else "NVIDIA Compute".toList

def smiHeaderLike (line : Str) : Bool :=
  strContains line "===".toList || strContains line "GPU".toList
    || strContains line "PID".toList || strContains line "No running processes".toList

/-- One line of the `nvidia-smi` output inside
    `_collect_gpu_processes_nvidia_smi`; the state is the
    `in_processes_section` flag and the result map. -/
def smiLineStep (env : GpuEnv) (cmap : List (Nat × ContainerRec)) (st : Bool × PMap)
    (line : Str) : Bool × PMap :=
  if isPrefOf "| Processes:".toList line then (true, st.2)
  else if !st.1 || !isPrefOf "|".toList line then st
  else if smiHeaderLike line then st
  else
    let cleaned := stripWs (stripPipes line)
    if cleaned.isEmpty then st
    else
      let parts := splitWs cleaned
      if parts.length ≥ 5 then
        match parts.foldl smiTokStep (none, none, none) with
        | (none, _, _) => st
        | (some pid, t, mem) =>
          let gmem := mem.getD 0
          if env.pidExists pid && !dmem st.2 pid then
            match env.procDetails pid with
            | none => st
            | some pd =>
              (st.1, dinsert st.2 pid
                { pid := pid, pname := pd.pname, command := commandOf pd.cmdline,
                  gpu_memory_mb := gmem, gpu_utilization := 0,
                  cpu_percent := pd.cpu_percent, ram_mb := pd.ram_mb,
                  start_time := pd.start_time, ptag := smiTypeTag t,
                  container := containerNameOf (dlookup cmap pid),
                  container_source := containerSourceOf (dlookup cmap pid) })
          else st
      else st

/-- `GPUCollector._collect_gpu_processes_nvidia_smi`: parse the captured
    stdout; any subprocess failure (`none`) leaves the map unchanged. -/
def collect_gpu_processes_nvidia_smi (env : GpuEnv) (cmap : List (Nat × ContainerRec))
    (processes : PMap) : PMap :=
  match env.smiStdout with
  | none => processes
  | some out => ((out.splitOn '\n').foldl (smiLineStep env cmap) (false, processes)).2

def gpu_keywords : List Str :=
  ["torch".toList, "cuda".toList, "tensorflow".toList, "uvr5".toList, "ncnn".toList]

/-- The per-pid query of the keyword supplement: direct query first, then
    (only when the direct one is not a found record) the query through
    the first namespace-map entry whose host side is this pid. -/
def keywordNvmlInfo (env : GpuEnv) (c2h : List (Nat × Nat)) (pid : Nat) : Option PidGpuInfo :=
  let direct := get_pid_gpu_info env pid
  if foundOk direct then direct
  else
    match c2h.find? (fun e => e.2 == pid) with
    | some e => get_pid_gpu_info env e.1
    | none => direct

/-- The provenance tag of the keyword supplement. -/
def keywordTypeTag (info : Option PidGpuInfo) : Str :=
  match info with
  | some (.found g _ v u) =>
    let b0 := "🎯 GPU ".toList ++ natStr g
    let b1 := if u > 0 then b0 ++ " - ".toList ++ natStr u ++ "% GPU".toList else b0
    if v > 0 then b1 ++ " - ".toList ++ natStr v ++ "MB VRAM".toList else b1
  | _ => "Potential GPU (Keyword)".toList

/-- The body of the per-process loop of
    `_supplement_with_keyword_search`: a pid already present is skipped
    outright; otherwise a best-effort per-pid query fills the GPU fields
    (zeros when unconfirmed) and the record is inserted. -/
def supplementStep (env : GpuEnv) (cmap : List (Nat × ContainerRec)) (c2h : List (Nat × Nat))
    (m : PMap) (proc : IterProc) : PMap :=
  if dmem m proc.pid then m
  else
    match env.procDetails proc.pid with
    | none => m
    | some pd =>
      let info := keywordNvmlInfo env c2h proc.pid
      let gmem := if foundOk info then foundVram info else 0
      let gutil := if foundOk info then foundUtil info else 0
      if dmem m proc.pid then m
      else dinsert m proc.pid
        { pid := proc.pid, pname := pd.pname, command := joinSp proc.cmdline,
          gpu_memory_mb := gmem, gpu_utilization := gutil,
          cpu_percent := pd.cpu_percent, ram_mb := pd.ram_mb, start_time := pd.start_time,
          ptag := keywordTypeTag (if foundOk info then info else none),
          container := containerNameOf (dlookup cmap proc.pid),
          container_source := containerSourceOf (dlookup cmap proc.pid) }

/-- `GPUCollector._supplement_with_keyword_search`. -/
def supplement_with_keyword_search (env : GpuEnv) (cmap : List (Nat × ContainerRec))
    (c2h : List (Nat × Nat)) (m : PMap) : PMap :=
  (search_gpu_processes_by_keywords env.processIter gpu_keywords).foldl
    (supplementStep env cmap c2h) m

/-- The two GPU data sources of `GPUCollector.get_gpu_processes`: NVML
    collection when initialized, then the nvidia-smi fallback when NVML
    is uninitialized or found nothing. -/
def primaryMap (env : GpuEnv) (cmap : List (Nat × ContainerRec)) (c2h : List (Nat × Nat))
    (h2cKeys : List Nat) : PMap :=
  let ps0 : PMap := if env.nvml_initialized then collect_gpu_processes_nvml env cmap c2h h2cKeys else []
  if !env.nvml_initialized || ps0.isEmpty then collect_gpu_processes_nvidia_smi env cmap ps0 else ps0

/-- The result map built by the body of `GPUCollector.get_gpu_processes`
    once the accelerator is known present: the two primary sources, then
    the keyword supplement. -/
def mergedMap (client : Option Nat) (denv : DockerRuntimeEnv) (env : GpuEnv) : PMap :=
  let cmap := get_container_process_map client denv
  let maps := build_pid_namespace_map env.nspidRecords
  let c2h := maps.1
  let h2cKeys := maps.2.map (fun e => e.1)
  supplement_with_keyword_search env cmap c2h (primaryMap env cmap c2h h2cKeys)

/-- `GPUCollector.get_gpu_processes`: the merger.  Returns `none` both
    when the accelerator is absent and when the result map ends empty. -/
def get_gpu_processes (client : Option Nat) (denv : DockerRuntimeEnv) (env : GpuEnv) :
    Option (List GpuProcRec) :=
  if !env.gpu_available then none
  else
    let ps2 := mergedMap client denv env
    if ps2.isEmpty then none else some (ps2.map (fun e => e.2))

/-- The sort key order of `get_top_gpu_processes`:
    `sorted(key=gpu_memory_mb, reverse=True)` places `a` before `b` when
    the memory of `b` is at most that of `a`; CPython sorting is stable,
    and a stable sort by a total transitive relation is insertion sort. -/
def memGe (a b : GpuProcRec) : Prop := b.gpu_memory_mb ≤ a.gpu_memory_mb

instance : DecidableRel memGe := fun _ _ => Nat.decLe _ _

instance : IsTotal GpuProcRec memGe :=
  ⟨fun a b => (Nat.le_total b.gpu_memory_mb a.gpu_memory_mb).imp id id⟩

instance : IsTrans GpuProcRec memGe :=
  ⟨fun _ _ _ hab hbc => le_trans hbc hab⟩

def sortDesc (l : List GpuProcRec) : List GpuProcRec := l.insertionSort memGe

/-- `GPUCollector.get_top_gpu_processes` (also delegated to verbatim by
    `SystemMonitorCollector.get_top_gpu_processes` in `base.py`). -/
def get_top_gpu_processes (client : Option Nat) (denv : DockerRuntimeEnv) (env : GpuEnv)
    (limit : Nat) : Option (List GpuProcRec) :=
  match get_gpu_processes client denv env with
  | none => none
  | some ps => if ps.isEmpty then none else some ((sortDesc ps).take limit)

/-! ### Association-map lemmas -/

theorem dmem_eq_isSome {β : Type} (m : List (Nat × β)) (k : Nat) :
    dmem m k = (dlookup m k).isSome := by
  induction m with
  | nil => rfl
  | cons e t ih =>
    simp only [dmem, dlookup]
    by_cases h : e.1 = k <;> simp [h, ih]

theorem dlookup_eq_none_of_not_dmem {β : Type} {m : List (Nat × β)} {k : Nat}
    (h : ¬dmem m k = true) : dlookup m k = none := by
  rw [dmem_eq_isSome] at h
  exact Option.not_isSome_iff_eq_none.mp (by simpa using h)

theorem mem_dinsert {β : Type} {m : List (Nat × β)} {k : Nat} {v : β} {e : Nat × β}
    (h : e ∈ dinsert m k v) : e ∈ m ∨ e = (k, v) := by
  unfold dinsert at h
  split at h
  · rcases List.mem_map.mp h with ⟨a, ha, rfl⟩
    by_cases hk : a.1 = k
    · right; simp [hk]
    · left; simpa [hk] using ha
  · rcases List.mem_append.mp h with h | h
    · exact Or.inl h
    · right; simpa using h

theorem dinsert_forall {β : Type} {P : Nat × β → Prop} {m : List (Nat × β)}
    (h : ∀ e ∈ m, P e) {k : Nat} {v : β} (hv : P (k, v)) :
    ∀ e ∈ dinsert m k v, P e := by
  intro e he
  rcases mem_dinsert he with he | rfl
  · exact h e he
  · exact hv

theorem dmem_of_fst_mem {β : Type} {m : List (Nat × β)} {a : Nat × β}
    (ha : a ∈ m) : dmem m a.1 = true := by
  induction m with
  | nil => cases ha
  | cons e t ih =>
    rcases List.mem_cons.mp ha with rfl | ha
    · simp [dmem]
    · by_cases he : e.1 = a.1 <;> simp [dmem, he, ih ha]

theorem dinsert_keys_nodup {β : Type} {m : List (Nat × β)} (h : (m.map Prod.fst).Nodup)
    (k : Nat) (v : β) : ((dinsert m k v).map Prod.fst).Nodup := by
  unfold dinsert
  split
  · have heq : (m.map (fun e => if e.1 = k then (k, v) else e)).map Prod.fst
        = m.map Prod.fst := by
      rw [List.map_map]
      apply List.map_congr_left
      intro a _
      by_cases hk : a.1 = k <;> simp [Function.comp, hk]
    rw [heq]; exact h
  · next hmem =>
    have hk : k ∉ m.map Prod.fst := by
      intro hcontra
      rcases List.mem_map.mp hcontra with ⟨a, ha, hfst⟩
      exact hmem (hfst ▸ dmem_of_fst_mem ha)
    simp only [List.map_append, List.map_cons, List.map_nil]
    exact List.Nodup.append h (List.nodup_singleton k) (by
      intro a haa hb
      simp only [List.mem_singleton] at hb
      subst hb
      exact hk haa)

theorem dlookup_map_update {β : Type} {m : List (Nat × β)} {k : Nat} (v : β)
    (h : dmem m k = true) :
    dlookup (m.map (fun e => if e.1 = k then (k, v) else e)) k = some v := by
  induction m with
  | nil => cases h
  | cons e t ih =>
    by_cases he : e.1 = k
    · simp [dlookup, he]
    · simp only [dmem, he, if_neg, not_false_eq_true] at h
      simp [dlookup, he, ih h]

theorem dlookup_append_right {β : Type} {m : List (Nat × β)} {k : Nat}
    (l : List (Nat × β)) (h : dlookup m k = none) :
    dlookup (m ++ l) k = dlookup l k := by
  induction m with
  | nil => rfl
  | cons e t ih =>
    by_cases he : e.1 = k
    · simp [dlookup, he] at h
    · simp only [dlookup, he, if_neg, not_false_eq_true] at h
      simpa [dlookup, he] using ih h

theorem dlookup_dinsert_self {β : Type} (m : List (Nat × β)) (k : Nat) (v : β) :
    dlookup (dinsert m k v) k = some v := by
  unfold dinsert
  split
  · next h => exact dlookup_map_update v h
  · next h =>
    rw [dlookup_append_right _ (dlookup_eq_none_of_not_dmem h)]
    simp [dlookup]

theorem dlookup_map_update_ne {β : Type} {m : List (Nat × β)} {k k' : Nat} (v : β)
    (h : k' ≠ k) :
    dlookup (m.map (fun e => if e.1 = k then (k, v) else e)) k' = dlookup m k' := by
  induction m with
  | nil => rfl
  | cons e t ih =>
    simp only [List.map_cons, dlookup]
    by_cases he : e.1 = k
    · rw [if_pos he, ih]
      have h1 : ¬(k, v).1 = k' := fun hc => h hc.symm
      have h2 : ¬e.1 = k' := fun hc => h (hc.symm.trans he)
      rw [if_neg h1, if_neg h2]
    · rw [if_neg he, ih]

theorem dlookup_append_single_ne {β : Type} (m : List (Nat × β)) (k k' : Nat) (v : β)
    (h : k' ≠ k) : dlookup (m ++ [(k, v)]) k' = dlookup m k' := by
  induction m with
  | nil =>
    show (if k = k' then some v else none) = none
    rw [if_neg (fun hc => h hc.symm)]
  | cons e t ih =>
    simp only [List.cons_append, dlookup]
    rw [show t.append [(k, v)] = t ++ [(k, v)] from rfl, ih]

theorem dlookup_dinsert_ne {β : Type} (m : List (Nat × β)) (k k' : Nat) (v : β)
    (h : k' ≠ k) : dlookup (dinsert m k v) k' = dlookup m k' := by
  unfold dinsert
  split
  · exact dlookup_map_update_ne v h
  · exact dlookup_append_single_ne m k k' v h

/-- Invariant preservation along a left fold. -/
theorem foldl_inv {σ α : Type _} {P : σ → Prop} (f : σ → α → σ) (l : List α) (s : σ)
    (h0 : P s) (hstep : ∀ s a, a ∈ l → P s → P (f s a)) : P (l.foldl f s) := by
  induction l generalizing s with
  | nil => exact h0
  | cons a t ih =>
    exact ih (f s a) (hstep s a (by simp) h0)
      (fun s' b hb hP => hstep s' b (by simp [hb]) hP)

/-! ### Result-map invariants -/

/-- Structural sanity of the result dict: keys are pairwise distinct and
    every stored record carries its own key as pid. -/
def keyInv (m : PMap) : Prop :=
  (m.map Prod.fst).Nodup ∧ ∀ e ∈ m, e.2.pid = e.1

/-- Every key of the result dict names an existing host process. -/
def exInv (env : GpuEnv) (m : PMap) : Prop :=
  ∀ e ∈ m, env.pidExists e.1 = true

theorem keyInv_nil : keyInv [] := ⟨List.nodup_nil, by intro e he; cases he⟩

theorem keyInv_dinsert {m : PMap} (h : keyInv m) {k : Nat} {v : GpuProcRec}
    (hv : v.pid = k) : keyInv (dinsert m k v) :=
  ⟨dinsert_keys_nodup h.1 k v, dinsert_forall h.2 hv⟩

theorem exInv_dinsert {env : GpuEnv} {m : PMap} (h : exInv env m) {k : Nat}
    (hk : env.pidExists k = true) (v : GpuProcRec) : exInv env (dinsert m k v) :=
  dinsert_forall h hk

theorem nvmlProcStep_keyInv (env : GpuEnv) (cmap : List (Nat × ContainerRec))
    (c2h : List (Nat × Nat)) (h2cKeys : List Nat) (gpu_id : Nat) (d : NvmlDevice)
    (gname : Str) (m : PMap) (p : NvmlProcEntry) (h : keyInv m) :
    keyInv (nvmlProcStep env cmap c2h h2cKeys gpu_id d gname m p) := by
  unfold nvmlProcStep
  dsimp only
  split
  · exact h
  · split
    · exact h
    · split
      · split
        · exact h
        · exact keyInv_dinsert h rfl
      · exact h

theorem nvmlProcStep_exInv (env : GpuEnv) (cmap : List (Nat × ContainerRec))
    (c2h : List (Nat × Nat)) (h2cKeys : List Nat) (gpu_id : Nat) (d : NvmlDevice)
    (gname : Str) (m : PMap) (p : NvmlProcEntry) (h : exInv env m) :
    exInv env (nvmlProcStep env cmap c2h h2cKeys gpu_id d gname m p) := by
  unfold nvmlProcStep
  dsimp only
  split
  · exact h
  · split
    · exact h
    · split
      · next hex =>
        split
        · exact h
        · exact exInv_dinsert h hex _
      · exact h

theorem collect_nvml_keyInv (env : GpuEnv) (cmap : List (Nat × ContainerRec))
    (c2h : List (Nat × Nat)) (h2cKeys : List Nat) :
    keyInv (collect_gpu_processes_nvml env cmap c2h h2cKeys) := by
  unfold collect_gpu_processes_nvml
  dsimp only
  apply foldl_inv _ _ _ keyInv_nil
  intro m idev _ hm
  apply foldl_inv _ _ _ hm
  intro m' p _ hm'
  exact nvmlProcStep_keyInv env cmap c2h h2cKeys idev.1 idev.2 _ m' p hm'

theorem collect_nvml_exInv (env : GpuEnv) (cmap : List (Nat × ContainerRec))
    (c2h : List (Nat × Nat)) (h2cKeys : List Nat) :
    exInv env (collect_gpu_processes_nvml env cmap c2h h2cKeys) := by
  unfold collect_gpu_processes_nvml
  dsimp only
  apply foldl_inv _ _ _ (fun e he => absurd he (List.not_mem_nil e))
  intro m idev _ hm
  apply foldl_inv _ _ _ hm
  intro m' p _ hm'
  exact nvmlProcStep_exInv env cmap c2h h2cKeys idev.1 idev.2 _ m' p hm'

theorem smiLineStep_keyInv (env : GpuEnv) (cmap : List (Nat × ContainerRec))
    (st : Bool × PMap) (line : Str) (h : keyInv st.2) :
    keyInv (smiLineStep env cmap st line).2 := by
  unfold smiLineStep
  dsimp only
  split
  · exact h
  · split
    · exact h
    · split
      · exact h
      · split
        · exact h
        · split
          · split
            · exact h
            · split
              · split
                · exact h
                · exact keyInv_dinsert h rfl
              · exact h
          · exact h

theorem smiLineStep_exInv (env : GpuEnv) (cmap : List (Nat × ContainerRec))
    (st : Bool × PMap) (line : Str) (h : exInv env st.2) :
    exInv env (smiLineStep env cmap st line).2 := by
  unfold smiLineStep
  dsimp only
  split
  · exact h
  · split
    · exact h
    · split
      · exact h
      · split
        · exact h
        · split
          · split
            · exact h
            · split
              · next hguard =>
                split
                · exact h
                · exact exInv_dinsert h (by
                    have := (Bool.and_eq_true _ _).mp hguard
                    exact this.1) _
              · exact h
          · exact h

theorem collect_smi_keyInv (env : GpuEnv) (cmap : List (Nat × ContainerRec))
    (ps : PMap) (h : keyInv ps) :
    keyInv (collect_gpu_processes_nvidia_smi env cmap ps) := by
  unfold collect_gpu_processes_nvidia_smi
  split
  · exact h
  · exact foldl_inv (P := fun st : Bool × PMap => keyInv st.2) _ _ (false, ps) h
      (fun st line _ hst => smiLineStep_keyInv env cmap st line hst)

theorem collect_smi_exInv (env : GpuEnv) (cmap : List (Nat × ContainerRec))
    (ps : PMap) (h : exInv env ps) :
    exInv env (collect_gpu_processes_nvidia_smi env cmap ps) := by
  unfold collect_gpu_processes_nvidia_smi
  split
  · exact h
  · exact foldl_inv (P := fun st : Bool × PMap => exInv env st.2) _ _ (false, ps) h
      (fun st line _ hst => smiLineStep_exInv env cmap st line hst)

theorem supplementStep_keyInv (env : GpuEnv) (cmap : List (Nat × ContainerRec))
    (c2h : List (Nat × Nat)) (m : PMap) (proc : IterProc) (h : keyInv m) :
    keyInv (supplementStep env cmap c2h m proc) := by
  unfold supplementStep
  dsimp only
  split
  · exact h
  · split
    · exact h
    · exact keyInv_dinsert h rfl

theorem supplementStep_exInv (env : GpuEnv) (cmap : List (Nat × ContainerRec))
    (c2h : List (Nat × Nat)) (m : PMap) (proc : IterProc)
    (hpe : env.pidExists proc.pid = true) (h : exInv env m) :
    exInv env (supplementStep env cmap c2h m proc) := by
  unfold supplementStep
  dsimp only
  split
  · exact h
  · split
    · exact h
    · exact exInv_dinsert h hpe _

theorem supplement_keyInv (env : GpuEnv) (cmap : List (Nat × ContainerRec))
    (c2h : List (Nat × Nat)) (m : PMap) (h : keyInv m) :
    keyInv (supplement_with_keyword_search env cmap c2h m) := by
  unfold supplement_with_keyword_search
  exact foldl_inv _ _ _ h
    (fun m' proc _ hm' => supplementStep_keyInv env cmap c2h m' proc hm')

theorem supplement_exInv (env : GpuEnv) (cmap : List (Nat × ContainerRec))
    (c2h : List (Nat × Nat)) (m : PMap)
    (hIter : ∀ p ∈ env.processIter, env.pidExists p.pid = true) (h : exInv env m) :
    exInv env (supplement_with_keyword_search env cmap c2h m) := by
  unfold supplement_with_keyword_search
  apply foldl_inv _ _ _ h
  intro m' proc hproc hm'
  have hmem : proc ∈ env.processIter := by
    have := List.mem_filter.mp (by
      simpa [search_gpu_processes_by_keywords] using hproc)
    exact this.1
  exact supplementStep_exInv env cmap c2h m' proc (hIter proc hmem) hm'

theorem smi_or_id_keyInv (env : GpuEnv) (cmap : List (Nat × ContainerRec)) (c : Bool)
    (ps : PMap) (h : keyInv ps) :
    keyInv (if c then collect_gpu_processes_nvidia_smi env cmap ps else ps) := by
  split
  · exact collect_smi_keyInv env cmap ps h
  · exact h

theorem smi_or_id_exInv (env : GpuEnv) (cmap : List (Nat × ContainerRec)) (c : Bool)
    (ps : PMap) (h : exInv env ps) :
    exInv env (if c then collect_gpu_processes_nvidia_smi env cmap ps else ps) := by
  split
  · exact collect_smi_exInv env cmap ps h
  · exact h

theorem primaryMap_keyInv (env : GpuEnv) (cmap : List (Nat × ContainerRec))
    (c2h : List (Nat × Nat)) (h2cKeys : List Nat) :
    keyInv (primaryMap env cmap c2h h2cKeys) := by
  unfold primaryMap
  dsimp only
  apply smi_or_id_keyInv
  split
  · exact collect_nvml_keyInv _ _ _ _
  · exact keyInv_nil

theorem primaryMap_exInv (env : GpuEnv) (cmap : List (Nat × ContainerRec))
    (c2h : List (Nat × Nat)) (h2cKeys : List Nat) :
    exInv env (primaryMap env cmap c2h h2cKeys) := by
  unfold primaryMap
  dsimp only
  apply smi_or_id_exInv
  split
  · exact collect_nvml_exInv _ _ _ _
  · exact fun e he => absurd he (List.not_mem_nil e)

/-- When the NVML source yields no records and the nvidia-smi parse adds
    none to an empty map, the primary stage produces the empty map,
    whether NVML was initialized or not. -/
theorem primaryMap_eq_nil (env : GpuEnv) (cmap : List (Nat × ContainerRec))
    (c2h : List (Nat × Nat)) (h2cKeys : List Nat)
    (hnvml : collect_gpu_processes_nvml env cmap c2h h2cKeys = [])
    (hsmi : collect_gpu_processes_nvidia_smi env cmap [] = []) :
    primaryMap env cmap c2h h2cKeys = [] := by
  unfold primaryMap
  dsimp only
  by_cases hn : env.nvml_initialized = true
  · rw [if_pos hn, hnvml]
    simp [hsmi]
  · rw [if_neg hn]
    simp [hsmi]

theorem mergedMap_keyInv (client : Option Nat) (denv : DockerRuntimeEnv) (env : GpuEnv) :
    keyInv (mergedMap client denv env) := by
  unfold mergedMap
  dsimp only
  apply supplement_keyInv
  exact primaryMap_keyInv _ _ _ _

theorem mergedMap_exInv (client : Option Nat) (denv : DockerRuntimeEnv) (env : GpuEnv)
    (hIter : ∀ p ∈ env.processIter, env.pidExists p.pid = true) :
    exInv env (mergedMap client denv env) := by
  unfold mergedMap
  dsimp only
  apply supplement_exInv _ _ _ _ hIter
  exact primaryMap_exInv _ _ _ _

/-- Extraction: a successful merger pass returns exactly the values of
    the merged result map. -/
theorem get_gpu_processes_some_eq {client : Option Nat} {denv : DockerRuntimeEnv}
    {env : GpuEnv} {l : List GpuProcRec} (h : get_gpu_processes client denv env = some l) :
    l = (mergedMap client denv env).map (fun e => e.2) := by
  unfold get_gpu_processes at h
  split at h
  · cases h
  · dsimp only at h
    split at h
    · cases h
    · exact (Option.some_injective _ h).symm

/-! ### Keyword-supplement behaviour -/

theorem supplementStep_lookup_other (env : GpuEnv) (cmap : List (Nat × ContainerRec))
    (c2h : List (Nat × Nat)) (m : PMap) (proc : IterProc) (k : Nat)
    (h : k ≠ proc.pid) :
    dlookup (supplementStep env cmap c2h m proc) k = dlookup m k := by
  unfold supplementStep
  dsimp only
  split
  · rfl
  · split
    · rfl
    · exact dlookup_dinsert_ne m proc.pid k _ h

theorem supplementStep_preserves_some (env : GpuEnv) (cmap : List (Nat × ContainerRec))
    (c2h : List (Nat × Nat)) (m : PMap) (proc : IterProc) (k : Nat) (v : GpuProcRec)
    (h : dlookup m k = some v) :
    dlookup (supplementStep env cmap c2h m proc) k = some v := by
  by_cases hk : k = proc.pid
  · subst hk
    have hm : dmem m proc.pid = true := by rw [dmem_eq_isSome, h]; rfl
    unfold supplementStep
    dsimp only
    rw [if_pos hm]
    exact h
  · rw [supplementStep_lookup_other env cmap c2h m proc k hk]
    exact h

/-- The keyword supplement never modifies a result-map entry that was
    already present: it only ever appends records for new pids. -/
theorem supplement_preserves_some (env : GpuEnv) (cmap : List (Nat × ContainerRec))
    (c2h : List (Nat × Nat)) (m : PMap) (k : Nat) (v : GpuProcRec)
    (h : dlookup m k = some v) :
    dlookup (supplement_with_keyword_search env cmap c2h m) k = some v := by
  unfold supplement_with_keyword_search
  exact foldl_inv (P := fun m' => dlookup m' k = some v) _ _ m h
    (fun m' proc _ hm' => supplementStep_preserves_some env cmap c2h m' proc k v hm')

theorem supplementStep_inserts_zero (env : GpuEnv) (cmap : List (Nat × ContainerRec))
    (c2h : List (Nat × Nat)) (m : PMap) (proc : IterProc) (pd : ProcDetails)
    (habs : dlookup m proc.pid = none)
    (hpd : env.procDetails proc.pid = some pd)
    (hnf : foundOk (keywordNvmlInfo env c2h proc.pid) = false) :
    ∃ r, dlookup (supplementStep env cmap c2h m proc) proc.pid = some r
      ∧ r.gpu_memory_mb = 0 ∧ r.gpu_utilization = 0 := by
  have hm : dmem m proc.pid = false := by rw [dmem_eq_isSome, habs]; rfl
  unfold supplementStep
  dsimp only
  rw [hpd]
  simp only [hm, Bool.false_eq_true, if_false, hnf]
  exact ⟨_, dlookup_dinsert_self m proc.pid _, rfl, rfl⟩

theorem supplement_adds_zero (env : GpuEnv) (cmap : List (Nat × ContainerRec))
    (c2h : List (Nat × Nat)) (m : PMap) (p : IterProc) (pd : ProcDetails)
    (hp : p ∈ search_gpu_processes_by_keywords env.processIter gpu_keywords)
    (hnd : (env.processIter.map IterProc.pid).Nodup)
    (habs : dlookup m p.pid = none)
    (hpd : env.procDetails p.pid = some pd)
    (hnf : foundOk (keywordNvmlInfo env c2h p.pid) = false) :
    ∃ r, dlookup (supplement_with_keyword_search env cmap c2h m) p.pid = some r
      ∧ r.gpu_memory_mb = 0 ∧ r.gpu_utilization = 0 := by
  have hndm : ((search_gpu_processes_by_keywords env.processIter gpu_keywords).map
      IterProc.pid).Nodup := by
    apply List.Nodup.sublist _ hnd
    exact List.Sublist.map IterProc.pid
      (List.filter_sublist (l := env.processIter))
  obtain ⟨s, t, hst⟩ := List.append_of_mem hp
  rw [hst] at hndm
  have hdisj : ∀ q ∈ s, q.pid ≠ p.pid := by
    intro q hq hqp
    rw [List.map_append, List.map_cons] at hndm
    have hd := List.disjoint_of_nodup_append hndm
    exact hd (List.mem_map_of_mem IterProc.pid hq) (by rw [hqp]; simp)
  unfold supplement_with_keyword_search
  rw [hst, List.foldl_append, List.foldl_cons]
  have hafter_s : dlookup (s.foldl (supplementStep env cmap c2h) m) p.pid = none := by
    apply foldl_inv (P := fun m' => dlookup m' p.pid = none) _ _ m habs
    intro m' q hq hm'
    rw [supplementStep_lookup_other env cmap c2h m' q p.pid
      (fun hc => hdisj q hq hc.symm)]
    exact hm'
  obtain ⟨r, hr, h0, h1⟩ :=
    supplementStep_inserts_zero env cmap c2h (s.foldl (supplementStep env cmap c2h) m)
      p pd hafter_s hpd hnf
  refine ⟨r, ?_, h0, h1⟩
  exact foldl_inv (P := fun m' => dlookup m' p.pid = some r) _ _ _ hr
    (fun m' q _ hm' => supplementStep_preserves_some env cmap c2h m' q p.pid r hm')

/-! ### Sorting lemmas for the top-process query -/

theorem filter_orderedInsert_memEq (n : Nat) (x : GpuProcRec) (l : List GpuProcRec) :
    (List.orderedInsert memGe x l).filter (fun r => r.gpu_memory_mb == n) =
      if x.gpu_memory_mb = n then x :: l.filter (fun r => r.gpu_memory_mb == n)
      else l.filter (fun r => r.gpu_memory_mb == n) := by
  induction l with
  | nil =>
    by_cases hx : x.gpu_memory_mb = n <;>
      simp [List.orderedInsert, List.filter_cons, hx]
  | cons y t ih =>
    have hstep : List.orderedInsert memGe x (y :: t) =
        if memGe x y then x :: y :: t else y :: List.orderedInsert memGe x t := rfl
    by_cases hins : memGe x y
    · rw [hstep, if_pos hins]
      by_cases hx : x.gpu_memory_mb = n <;> simp [List.filter_cons, hx]
    · rw [hstep, if_neg hins]
      by_cases hx : x.gpu_memory_mb = n
      · have hy : ¬y.gpu_memory_mb = n := fun hc => hins (by unfold memGe; omega)
        simp [List.filter_cons, hy, ih, hx]
      · by_cases hy : y.gpu_memory_mb = n <;>
          simp [List.filter_cons, hy, ih, hx]

/-- Stability of the descending sort: records with any given memory
    figure keep their original relative order. -/
theorem filter_sortDesc (n : Nat) (l : List GpuProcRec) :
    (sortDesc l).filter (fun r => r.gpu_memory_mb == n)
      = l.filter (fun r => r.gpu_memory_mb == n) := by
  induction l with
  | nil => rfl
  | cons a t ih =>
    unfold sortDesc at ih
    show (List.orderedInsert memGe a (List.insertionSort memGe t)).filter _ = _
    rw [filter_orderedInsert_memEq]
    by_cases ha : a.gpu_memory_mb = n <;> simp [ha, List.filter_cons, ih]

theorem get_gpu_processes_some_ne_nil {client : Option Nat} {denv : DockerRuntimeEnv}
    {env : GpuEnv} {l : List GpuProcRec}
    (h : get_gpu_processes client denv env = some l) : l ≠ [] := by
  unfold get_gpu_processes at h
  split at h
  · cases h
  · dsimp only at h
    split at h
    · cases h
    · next hne =>
      intro hl
      have hmap := Option.some_injective _ h
      rw [hl] at hmap
      rw [List.map_eq_nil_iff.mp hmap] at hne
      exact hne rfl

/-! ### Concrete environments used by witnesses and counterexamples -/

def emptyDockerEnv : DockerRuntimeEnv := { containersList := none }

/-- Both GPU sources present-but-empty: NVML never initialized,
    nvidia-smi unavailable, and no scannable host processes. -/
def c1Env : GpuEnv :=
  { gpu_available := true, nvml_initialized := false, devices := [],
    pidExists := fun _ => false, procDetails := fun _ => none,
    nspidRecords := [], processIter := [], smiStdout := none }

/-- Both GPU sources available but yielding no process records: NVML is
    initialized yet its device lists no processes, nvidia-smi runs but
    its process table holds only the no-running-processes row, and the
    process list is nonempty but matches neither a keyword nor python. -/
def c1EnvB : GpuEnv :=
  { gpu_available := true, nvml_initialized := true,
    devices := [{ devName := some "GeForce RTX".toList, accountingEnabled := false,
                  computeProcs := [], graphicsProcs := [], accStats := fun _ => none }],
    pidExists := fun _ => true, procDetails := fun _ => none,
    nspidRecords := [[4242, 7]],
    processIter := [{ pid := 99, pname := "bash".toList, cmdline := ["bash".toList] }],
    smiStdout := some ("| Processes: |\n|  No running processes found  |".toList) }

/-- One NVML device reporting host pid 500 with 2048 MiB in use. -/
def envNvml500 : GpuEnv :=
  { gpu_available := true, nvml_initialized := true,
    devices := [{ devName := some "GeForce RTX".toList, accountingEnabled := false,
                  computeProcs := [{ pid := 500, usedGpuMemory := some (2048 * 1024 * 1024) }],
                  graphicsProcs := [], accStats := fun _ => none }],
    pidExists := fun p => p == 500,
    procDetails := fun p =>
      if p == 500 then
        some { pname := "python3".toList,
               cmdline := ["python3".toList, "train.py".toList],
               cpu_percent := 12, ram_mb := 256,
               start_time := "2026-01-01T00:00:00".toList }
      else none,
    nspidRecords := [], processIter := [], smiStdout := none }

def c2Result : List GpuProcRec :=
  (get_gpu_processes none emptyDockerEnv envNvml500).getD []

def c3Env : GpuEnv :=
  { gpu_available := true, nvml_initialized := false, devices := [],
    pidExists := fun p => p == 500, procDetails := fun _ => none,
    nspidRecords := [], processIter := [], smiStdout := none }

def c4Env : GpuEnv :=
  { gpu_available := true, nvml_initialized := false, devices := [],
    pidExists := fun _ => false, procDetails := fun _ => none,
    nspidRecords := [], processIter := [], smiStdout := none }

/-- Host pid 9001 owns a namespaced process and has a found per-pid
    record of 512 MiB; raw pid 12 does not exist on the host. -/
def c5Env : GpuEnv :=
  { gpu_available := true, nvml_initialized := true,
    devices := [{ devName := none, accountingEnabled := false,
                  computeProcs := [{ pid := 9001, usedGpuMemory := some (512 * 1024 * 1024) }],
                  graphicsProcs := [], accStats := fun _ => none }],
    pidExists := fun _ => false, procDetails := fun _ => none,
    nspidRecords := [], processIter := [], smiStdout := none }

/-! ### The claims -/

/-- C1 (counterexample): with both GPU data sources unavailable (NVML
    uninitialized, the diagnostic CLI yielding nothing) and an empty
    keyword scan, `get_gpu_processes` returns `None`, which IS a distinct
    non-list sentinel — not the empty list the claim promises. -/
theorem c1_counterexample :
    get_gpu_processes none emptyDockerEnv c1Env = none ∧
    get_gpu_processes none emptyDockerEnv c1Env ≠ some [] := by
  refine ⟨rfl, ?_⟩
  show (none : Option (List GpuProcRec)) ≠ some []
  simp

/-- C1 (amended): whenever the two GPU data sources are unavailable or
    yield no process records this poll (the NVML collection produces no
    records at the poll's container and namespace maps — covering both an
    uninitialized accounting API and an initialized one that reports
    nothing — and the nvidia-smi parse adds no rows) and the keyword-scan
    supplement adds nothing, the merger returns the `None` sentinel (the
    same value used for a known-absent accelerator) and, being a total
    function, raises nothing.  Moreover, in no poll whatsoever does it
    return the empty list: the zero-records outcome is always signalled
    by `None`, a distinct non-list sentinel. -/
theorem c1_collect_returns_none_when_sources_empty (client : Option Nat)
    (denv : DockerRuntimeEnv) (env : GpuEnv) :
    (collect_gpu_processes_nvml env (get_container_process_map client denv)
        (build_pid_namespace_map env.nspidRecords).1
        (List.map (fun e => e.1) (build_pid_namespace_map env.nspidRecords).2) = [] →
      collect_gpu_processes_nvidia_smi env (get_container_process_map client denv) [] = [] →
      supplement_with_keyword_search env (get_container_process_map client denv)
        (build_pid_namespace_map env.nspidRecords).1 [] = [] →
      get_gpu_processes client denv env = none)
    ∧ get_gpu_processes client denv env ≠ some [] := by
  constructor
  · intro hnvml hsmi hkw
    have hm : mergedMap client denv env = [] := by
      unfold mergedMap
      dsimp only
      rw [primaryMap_eq_nil env (get_container_process_map client denv)
        (build_pid_namespace_map env.nspidRecords).1
        (List.map (fun e => e.1) (build_pid_namespace_map env.nspidRecords).2) hnvml hsmi]
      exact hkw
    unfold get_gpu_processes
    split
    · rfl
    · simp [hm]
  · intro hc
    exact get_gpu_processes_some_ne_nil hc rfl

theorem c1_witness : get_gpu_processes none emptyDockerEnv c1EnvB = none :=
  (c1_collect_returns_none_when_sources_empty none emptyDockerEnv c1EnvB).1 rfl rfl rfl

/-- C2: every successful merger pass returns a list whose host pids are
    pairwise distinct, because all three collection paths insert into one
    pid-keyed dict. -/
theorem c2_unique_host_pids (client : Option Nat) (denv : DockerRuntimeEnv)
    (env : GpuEnv) (l : List GpuProcRec)
    (h : get_gpu_processes client denv env = some l) :
    (l.map GpuProcRec.pid).Nodup := by
  have hl := get_gpu_processes_some_eq h
  subst hl
  have hk := mergedMap_keyInv client denv env
  rw [List.map_map]
  have heq : (mergedMap client denv env).map (GpuProcRec.pid ∘ fun e => e.2)
      = (mergedMap client denv env).map Prod.fst := by
    apply List.map_congr_left
    intro e he
    exact hk.2 e he
  rw [heq]
  exact hk.1

theorem c2_witness : (c2Result.map GpuProcRec.pid).Nodup :=
  c2_unique_host_pids none emptyDockerEnv envNvml500 c2Result rfl

/-- C3: a raw pid that exists on the host is returned unchanged by
    `_resolve_pid`; the namespace map, the reverse-search candidate list
    and the per-pid query environment are all arbitrary here, so nothing
    else is consulted. -/
theorem c3_direct_hit (env : GpuEnv) (h2cKeys : List Nat) (c2h : List (Nat × Nat))
    (raw vram : Nat) (h : env.pidExists raw = true) :
    resolve_pid env h2cKeys c2h raw vram = some raw := by
  unfold resolve_pid
  simp [h]

theorem c3_witness : resolve_pid c3Env [7] [(1, 2)] 500 64 = some 500 :=
  c3_direct_hit c3Env [7] [(1, 2)] 500 64 rfl

/-- C4: a raw pid that does not exist on the host but is a
    container-relative key of the namespace map built by
    `build_pid_namespace_map` resolves to the mapped host pid. -/
theorem c4_namespace_translation (env : GpuEnv) (recs : List (List Nat))
    (h2cKeys : List Nat) (raw host vram : Nat)
    (h1 : env.pidExists raw = false)
    (h2 : dlookup (build_pid_namespace_map recs).1 raw = some host) :
    resolve_pid env h2cKeys (build_pid_namespace_map recs).1 raw vram = some host := by
  unfold resolve_pid
  simp [h1, h2]

theorem c4_witness :
    resolve_pid c4Env [] (build_pid_namespace_map [[9001, 12]]).1 12 512 = some 9001 :=
  c4_namespace_translation c4Env [[9001, 12]] [] 12 9001 512 rfl rfl

/-- C5: once direct hit and namespace translation have failed, the
    verified reverse search accepts a candidate (a key of the
    host-to-container map) exactly when its individually queried memory
    figure is within the 1 MB tolerance of the declared figure (inside
    the 1-2 MB band the spec allows); when no candidate is within
    tolerance, resolution returns `none`, and the NVML collection loop
    then drops the raw record, leaving the result map unchanged. -/
theorem c5_verified_reverse_search (env : GpuEnv) (h2cKeys : List Nat)
    (c2h : List (Nat × Nat)) (raw vram : Nat)
    (h1 : env.pidExists raw = false) (h2 : dlookup c2h raw = none) :
    (∀ t, resolve_pid env h2cKeys c2h raw vram = some t →
        t ∈ h2cKeys ∧ ∃ g nm v u, get_pid_gpu_info env t = some (.found g nm v u)
          ∧ Nat.dist v vram ≤ 1)
    ∧ ((∀ t ∈ h2cKeys, ∀ g nm v u,
          get_pid_gpu_info env t = some (.found g nm v u) → ¬Nat.dist v vram ≤ 1) →
        resolve_pid env h2cKeys c2h raw vram = none)
    ∧ (resolve_pid env h2cKeys c2h raw vram = none →
        ∀ cmap gid d gname m p, NvmlProcEntry.pid p = raw →
          mbOf p.usedGpuMemory = vram →
          nvmlProcStep env cmap c2h h2cKeys gid d gname m p = m) := by
  refine ⟨?_, ?_, ?_⟩
  · intro t ht
    unfold resolve_pid at ht
    simp only [h1, Bool.false_eq_true, if_false, h2] at ht
    refine ⟨List.mem_of_find?_eq_some ht, ?_⟩
    have hv := List.find?_some ht
    unfold vramMatch at hv
    cases hq : get_pid_gpu_info env t with
    | none => rw [hq] at hv; cases hv
    | some info =>
      cases info with
      | notFound => rw [hq] at hv; cases hv
      | found g nm v u =>
        rw [hq] at hv
        exact ⟨g, nm, v, u, rfl, of_decide_eq_true hv⟩
  · intro hall
    have hfind : h2cKeys.find? (vramMatch env vram) = none := by
      rw [List.find?_eq_none]
      intro t htk
      unfold vramMatch
      cases hq : get_pid_gpu_info env t with
      | none => simp
      | some info =>
        cases info with
        | notFound => simp
        | found g nm v u =>
          simp only [decide_eq_true_eq]
          exact hall t htk g nm v u hq
    unfold resolve_pid
    simp [h1, h2, hfind]
  · intro hnone cmap gid d gname m p hp hv
    unfold nvmlProcStep
    dsimp only
    rw [hp, hv, hnone]

theorem c5_witness :
    9001 ∈ [9001] ∧ ∃ g nm v u, get_pid_gpu_info c5Env 9001 = some (.found g nm v u)
      ∧ Nat.dist v 512 ≤ 1 :=
  (c5_verified_reverse_search c5Env [9001] [] 12 512 rfl rfl).1 9001 rfl

/-- An existing attribution of 5 MB for pid 42, while a fresh per-pid
    query would report 10 MB. -/
def c6Rec : GpuProcRec :=
  { pid := 42, pname := "python3".toList, command := [], gpu_memory_mb := 5,
    gpu_utilization := 0, cpu_percent := 0, ram_mb := 0, start_time := [],
    ptag := "NVIDIA Compute".toList, container := "Host".toList,
    container_source := "主機".toList }

def c6Env : GpuEnv :=
  { gpu_available := true, nvml_initialized := true,
    devices := [{ devName := none, accountingEnabled := false,
                  computeProcs := [{ pid := 42, usedGpuMemory := some (10 * 1024 * 1024) }],
                  graphicsProcs := [], accStats := fun _ => none }],
    pidExists := fun p => p == 42,
    procDetails := fun p =>
      if p == 42 then
        some { pname := "python3".toList, cmdline := [], cpu_percent := 0,
               ram_mb := 0, start_time := [] }
      else none,
    nspidRecords := [], processIter := [{ pid := 42, pname := "python3".toList, cmdline := [] }],
    smiStdout := none }

/-- C6 (counterexample): the per-pid query for the already-present pid 42
    would report 10 MB, strictly above the stored 5 MB, yet the keyword
    supplement leaves the map completely unchanged — the pid is skipped
    before any query happens, so the claimed strictly-larger upgrade
    never occurs. -/
theorem c6_counterexample :
    foundVram (get_pid_gpu_info c6Env 42) = 10 ∧ (5 : Nat) < 10 ∧
    supplement_with_keyword_search c6Env [] [] [(42, c6Rec)] = [(42, c6Rec)] ∧
    (dlookup (supplement_with_keyword_search c6Env [] [] [(42, c6Rec)]) 42).map
      GpuProcRec.gpu_memory_mb = some 5 := by
  refine ⟨rfl, by norm_num, rfl, rfl⟩

/-- C6 (amended): the keyword supplement never replaces nor modifies an
    existing record — a matched process whose pid is already in the
    result map is skipped outright, so no upgrade of the GPU fields takes
    place even when the newly queryable memory figure is strictly larger. -/
theorem c6_keyword_supplement_preserves_existing (env : GpuEnv)
    (cmap : List (Nat × ContainerRec)) (c2h : List (Nat × Nat)) (m : PMap)
    (k : Nat) (v : GpuProcRec) (h : dlookup m k = some v) :
    dlookup (supplement_with_keyword_search env cmap c2h m) k = some v :=
  supplement_preserves_some env cmap c2h m k v h

theorem c6_witness :
    dlookup (supplement_with_keyword_search c6Env [] [] [(42, c6Rec)]) 42 = some c6Rec :=
  c6_keyword_supplement_preserves_existing c6Env [] [] [(42, c6Rec)] 42 c6Rec rfl

def c7InitFail : DockerInitEnv :=
  { dockerModuleAvailable := true, attemptSucceeds := fun _ => false }

def c7InitOk : DockerInitEnv :=
  { dockerModuleAvailable := true, attemptSucceeds := fun _ => true }

def c7Container : DockerContainer :=
  { cname := "web".toList, imageTags := ["nginx".toList], status := "running".toList,
    topRows := some [["root".toList, "123".toList]] }

def c7Runtime : DockerRuntimeEnv := { containersList := some [c7Container] }

/-- C7 (counterexample): a helper constructed while the runtime was
    unreachable keeps `docker_client = None` forever; on a later poll,
    when the runtime IS reachable (all connection attempts would succeed
    and one container with pid 123 is listed), the cached helper still
    returns the empty index, while a freshly initialized helper returns
    the populated index — the failed connection is cached, not retried
    per poll. -/
theorem c7_counterexample :
    init_docker_client c7InitFail = none ∧
    helperPoll (mkDockerHelper c7InitFail) c7Runtime = [] ∧
    init_docker_client c7InitOk = some 0 ∧
    helperPoll (mkDockerHelper c7InitOk) c7Runtime =
      [(123, { cname := "web".toList, image := "nginx".toList,
               status := "running".toList })] :=
  ⟨rfl, rfl, rfl, rfl⟩

/-- C7 (amended): client initialization tries the four transport
    addresses in order and keeps the first whose ping succeeds; a missing
    docker module or four failed attempts yield `None`; and with a `None`
    client every poll returns the empty index without raising — but the
    connection is attempted only once, in the helper constructor, so a
    failure is cached for the object lifetime rather than retried on the
    next poll. -/
theorem c7_docker_cached_failure (e : DockerInitEnv) :
    (e.dockerModuleAvailable = false → init_docker_client e = none)
    ∧ (∀ i, init_docker_client e = some i →
        e.attemptSucceeds i = true ∧ ∀ j, j < i → e.attemptSucceeds j = false)
    ∧ (init_docker_client e = none →
        ∀ denv, helperPoll (mkDockerHelper e) denv = []) := by
  refine ⟨?_, ?_, ?_⟩
  · intro h
    simp [init_docker_client, h]
  · intro i hi
    unfold init_docker_client at hi
    by_cases hmod : e.dockerModuleAvailable
    · rw [if_pos hmod] at hi
      rw [show List.range 4 = [0, 1, 2, 3] from rfl] at hi
      by_cases h0 : e.attemptSucceeds 0
      · simp only [List.find?, h0] at hi
        cases hi
        exact ⟨h0, fun j hj => absurd hj (Nat.not_lt_zero j)⟩
      · by_cases h1 : e.attemptSucceeds 1
        · simp only [List.find?, h0, h1] at hi
          cases hi
          refine ⟨h1, fun j hj => ?_⟩
          interval_cases j
          · simpa using h0
        · by_cases h2 : e.attemptSucceeds 2
          · simp only [List.find?, h0, h1, h2] at hi
            cases hi
            refine ⟨h2, fun j hj => ?_⟩
            interval_cases j
            · simpa using h0
            · simpa using h1
          · by_cases h3 : e.attemptSucceeds 3
            · simp only [List.find?, h0, h1, h2, h3] at hi
              cases hi
              refine ⟨h3, fun j hj => ?_⟩
              interval_cases j
              · simpa using h0
              · simpa using h1
              · simpa using h2
            · simp only [List.find?, h0, h1, h2, h3] at hi
              cases hi
    · rw [if_neg hmod] at hi
      cases hi
  · intro hnone denv
    show get_container_process_map (init_docker_client e) denv = []
    rw [hnone]
    rfl

theorem c7_witness : helperPoll (mkDockerHelper c7InitFail) c7Runtime = [] :=
  (c7_docker_cached_failure c7InitFail).2.2 rfl c7Runtime

/-- C8: every record returned by a merger pass names a host pid that the
    process-existence oracle confirmed at poll time — the NVML and
    nvidia-smi paths check `pid_exists` before inserting (dropping any
    raw record whose pid cannot be resolved to an existing process), and
    the keyword path only sees pids enumerated by `process_iter`, which
    by assumption lists existing processes. -/
theorem c8_existence_invariant (client : Option Nat) (denv : DockerRuntimeEnv)
    (env : GpuEnv) (l : List GpuProcRec)
    (hIter : ∀ p ∈ env.processIter, env.pidExists p.pid = true)
    (h : get_gpu_processes client denv env = some l) :
    ∀ r ∈ l, env.pidExists r.pid = true := by
  have hl := get_gpu_processes_some_eq h
  subst hl
  intro r hr
  rcases List.mem_map.mp hr with ⟨e, he, rfl⟩
  have h1 := (mergedMap_keyInv client denv env).2 e he
  have h2 := mergedMap_exInv client denv env hIter e he
  rw [h1]
  exact h2

theorem c8_witness : c2Result.all (fun r => envNvml500.pidExists r.pid) = true :=
  List.all_eq_true.mpr (fun r hr =>
    c8_existence_invariant none emptyDockerEnv envNvml500 c2Result
      (fun p hp => absurd hp (List.not_mem_nil p)) rfl r hr)

def c9Env : GpuEnv :=
  { gpu_available := true, nvml_initialized := false, devices := [],
    pidExists := fun _ => true,
    procDetails := fun q =>
      if q == 77 then
        some { pname := "python3".toList, cmdline := [], cpu_percent := 0,
               ram_mb := 0, start_time := [] }
      else none,
    nspidRecords := [],
    processIter := [{ pid := 77, pname := "python3".toList, cmdline := [] }],
    smiStdout := none }

def c9Pd : ProcDetails :=
  { pname := "python3".toList, cmdline := [], cpu_percent := 0, ram_mb := 0,
    start_time := [] }

/-- C9: the keyword scan keeps exactly the processes matching a
    GPU-affinity keyword in the joined name/cmdline or containing
    `python` in the name or command line; in particular any
    python-process is matched, and when it is not already attributed and
    neither the direct nor the namespace-translated per-pid query finds
    it, it is inserted with zeroed GPU memory and utilization. -/
theorem c9_python_keyword_match (env : GpuEnv) (cmap : List (Nat × ContainerRec))
    (c2h : List (Nat × Nat)) (m : PMap) (p : IterProc) (pd : ProcDetails)
    (hp : p ∈ env.processIter)
    (hpy : strContains (lowerStr p.pname) "python".toList = true
         ∨ strContains (lowerStr (joinSp p.cmdline)) "python".toList = true)
    (hnd : (env.processIter.map IterProc.pid).Nodup)
    (habs : dlookup m p.pid = none)
    (hpd : env.procDetails p.pid = some pd)
    (hnf : foundOk (keywordNvmlInfo env c2h p.pid) = false) :
    (∀ q, q ∈ search_gpu_processes_by_keywords env.processIter gpu_keywords
        ↔ q ∈ env.processIter ∧ keywordMatch gpu_keywords q = true)
    ∧ p ∈ search_gpu_processes_by_keywords env.processIter gpu_keywords
    ∧ ∃ r, dlookup (supplement_with_keyword_search env cmap c2h m) p.pid = some r
        ∧ r.gpu_memory_mb = 0 ∧ r.gpu_utilization = 0 := by
  have hmatch : keywordMatch gpu_keywords p = true := by
    unfold keywordMatch
    dsimp only
    simp only [Bool.or_eq_true]
    rcases hpy with hh | hh
    · exact Or.inl (Or.inr hh)
    · exact Or.inr hh
  have hmem : p ∈ search_gpu_processes_by_keywords env.processIter gpu_keywords := by
    unfold search_gpu_processes_by_keywords
    exact List.mem_filter.mpr ⟨hp, hmatch⟩
  refine ⟨?_, hmem, ?_⟩
  · intro q
    unfold search_gpu_processes_by_keywords
    exact List.mem_filter
  · exact supplement_adds_zero env cmap c2h m p pd hmem hnd habs hpd hnf

theorem c9_witness :
    (dlookup (supplement_with_keyword_search c9Env [] [] []) 77).map
      GpuProcRec.gpu_memory_mb = some 0 := by
  obtain ⟨-, -, r, hr, h0, -⟩ :=
    c9_python_keyword_match c9Env [] [] [] ⟨77, "python3".toList, []⟩ c9Pd
      (show (⟨77, "python3".toList, []⟩ : IterProc)
          ∈ [(⟨77, "python3".toList, []⟩ : IterProc)] from List.mem_singleton.mpr rfl)
      (Or.inl rfl) (by decide) rfl rfl rfl
  rw [hr]
  simp [h0]

/-- C10: the top-process query returns `None` exactly when the merger
    attributed nothing this poll (it never substitutes an empty list for
    `None`); otherwise it returns the attribution list stably sorted by
    descending `gpu_memory_mb` and truncated to at most `limit` records,
    records with equal memory figures keeping their original relative
    order. -/
theorem c10_top_gpu_processes (client : Option Nat) (denv : DockerRuntimeEnv)
    (env : GpuEnv) (limit : Nat) :
    (get_top_gpu_processes client denv env limit = none
      ↔ get_gpu_processes client denv env = none)
    ∧ ∀ l, get_gpu_processes client denv env = some l →
        get_top_gpu_processes client denv env limit = some ((sortDesc l).take limit)
        ∧ ((sortDesc l).take limit).length ≤ limit
        ∧ List.Sorted memGe ((sortDesc l).take limit)
        ∧ ∀ n, (sortDesc l).filter (fun r => r.gpu_memory_mb == n)
            = l.filter (fun r => r.gpu_memory_mb == n) := by
  have hsome : ∀ l, get_gpu_processes client denv env = some l →
      get_top_gpu_processes client denv env limit = some ((sortDesc l).take limit) := by
    intro l hl
    have hne := get_gpu_processes_some_ne_nil hl
    unfold get_top_gpu_processes
    rw [hl]
    have hemp : l.isEmpty = false := by
      cases l with
      | nil => exact absurd rfl hne
      | cons a t => rfl
    simp [hemp]
  constructor
  · constructor
    · intro htop
      cases hg : get_gpu_processes client denv env with
      | none => rfl
      | some l => rw [hsome l hg] at htop; cases htop
    · intro hg
      unfold get_top_gpu_processes
      rw [hg]
  · intro l hl
    refine ⟨hsome l hl, ?_, ?_, fun n => filter_sortDesc n l⟩
    · rw [List.length_take]
      exact min_le_left _ _
    · exact List.Pairwise.sublist (List.take_sublist _ _)
        (List.sorted_insertionSort memGe l)

theorem c10_witness :
    get_top_gpu_processes none emptyDockerEnv envNvml500 10
      = some ((sortDesc c2Result).take 10) :=
  ((c10_top_gpu_processes none emptyDockerEnv envNvml500 10).2 c2Result rfl).1

end SystemMonitor
